import Mathlib

/-!
Shallow embedding of the order-placement screen of the gas-delivery client
(`src/app/place-order.tsx`), covering the coordinate validator, the map/GPS
location-state updates, reverse geocoding, the cart operations, and the
order-submission gate, with theorems checking the specification's claims.

JavaScript numbers are modelled as `JSNum`: either NaN, one of the two
infinities, or a finite value represented exactly as a rational.  The code
under verification performs no arithmetic on coordinates — only comparisons
against integer constants and NaN tests — and IEEE-754 comparison on non-NaN
doubles agrees with the rational order, with NaN comparing false to
everything, so this model is faithful for every construct the code uses.
-/

namespace GasDeliver

/-- A JavaScript number: NaN, ±Infinity, or a finite value (exact rational). -/
inductive JSNum where
  | nan : JSNum
  | posInf : JSNum
  | negInf : JSNum
  | fin (q : ℚ) : JSNum
deriving DecidableEq, Repr

/-- JavaScript's global `isNaN` on a number. -/
def isNaN : JSNum → Bool
  | .nan => true
  | _ => false

/-- IEEE-754 `<=` on JavaScript numbers: false whenever either side is NaN. -/
def jsLe : JSNum → JSNum → Bool
  | .nan, _ => false
  | _, .nan => false
  | .negInf, _ => true
  | _, .negInf => false
  | _, .posInf => true
  | .posInf, _ => false
  | .fin a, .fin b => decide (a ≤ b)

/-- Model of `validateCoordinates` from `src/app/place-order.tsx` lines 81-90:
`!isNaN(lat) && !isNaN(lng) && lat >= -90 && lat <= 90 && lng >= -180 && lng <= 180`. -/
def validateCoordinates (lat lng : JSNum) : Bool :=
  !isNaN lat && !isNaN lng &&
    jsLe (.fin (-90)) lat && jsLe lat (.fin 90) &&
    jsLe (.fin (-180)) lng && jsLe lng (.fin 180)

/-- C3: `validateCoordinates` holds exactly on finite (hence non-NaN) pairs with
latitude in [-90, 90] and longitude in [-180, 180]; the boundaries ±90/±180 and
the origin (0, 0) are all valid. -/
theorem validateCoordinates_iff_finite_in_range :
    (∀ lat lng : JSNum, validateCoordinates lat lng = true ↔
      ∃ a b : ℚ, lat = .fin a ∧ lng = .fin b ∧
        -90 ≤ a ∧ a ≤ 90 ∧ -180 ≤ b ∧ b ≤ 180) ∧
    validateCoordinates (.fin 90) (.fin 180) = true ∧
    validateCoordinates (.fin (-90)) (.fin (-180)) = true ∧
    validateCoordinates (.fin 0) (.fin 0) = true := by
  refine ⟨fun lat lng => ?_, by decide, by decide, by decide⟩
  cases lat <;> cases lng <;>
    simp [validateCoordinates, isNaN, jsLe, and_assoc]

/-! ## Decimal string rendering

Models of the JavaScript number-to-string operations the screen uses:
`Number.prototype.toString` (for seeding the latitude/longitude text fields)
and `Number.prototype.toFixed(4)` (for the reverse-geocode fallback address).
On the simple finite-decimal values the screen handles these agree with the
JavaScript results. -/

/-- Decimal digits of the fractional part `q ∈ [0, 1)`, most significant first,
stopping at the first exact zero remainder (bounded by `fuel`). -/
def fracDigitChars (fuel : Nat) (q : ℚ) : List Char :=
  match fuel with
  | 0 => []
  | fuel + 1 =>
    if q = 0 then []
    else
      let q10 := q * 10
      let d := ⌊q10⌋
      Char.ofNat (48 + d.toNat) :: fracDigitChars fuel (q10 - d)

/-- Shortest decimal rendering of a non-negative rational (up to 20 fractional
digits), as `Number.prototype.toString` produces for finite-decimal values. -/
def ratToString (q : ℚ) : String :=
  let neg := q < 0
  let q := if neg then -q else q
  let ip : Nat := ⌊q⌋.toNat
  let f := fracDigitChars 20 (q - ⌊q⌋)
  (if neg then "-" else "") ++ toString ip ++
    (if f.isEmpty then "" else "." ++ String.mk f)

/-- Model of `Number.prototype.toString` on a JavaScript number. -/
def jsNumToString : JSNum → String
  | .nan => "NaN"
  | .posInf => "Infinity"
  | .negInf => "-Infinity"
  | .fin q => ratToString q

/-- Render `n` as a base-10 numeral left-padded with zeros to `d` digits. -/
def padZeros (d : Nat) (n : Nat) : String :=
  let s := toString n
  String.mk (List.replicate (d - s.length) '0') ++ s

/-- Model of `Number.prototype.toFixed(d)` on a JavaScript number (round half away from
zero; exact on the values the screen formats, where no tie arises). -/
def toFixed (x : JSNum) (d : Nat) : String :=
  match x with
  | .nan => "NaN"
  | .posInf => "Infinity"
  | .negInf => "-Infinity"
  | .fin q =>
    let neg := q < 0
    let q := if neg then -q else q
    let n : Nat := (⌊q * 10 ^ d + 1 / 2⌋).toNat
    let ip := n / 10 ^ d
    let fp := n % 10 ^ d
    (if neg then "-" else "") ++ toString ip ++
      (if d = 0 then "" else "." ++ padZeros d fp)

/-! ## Location state and its updates -/

/-- A map coordinate, as the `{latitude, longitude}` objects of the screen. -/
structure Coord where
  latitude : JSNum
  longitude : JSNum
deriving DecidableEq, Repr

/-- The `MapRegion` interface of `src/app/place-order.tsx` lines 29-34. -/
structure MapRegion where
  latitude : JSNum
  longitude : JSNum
  latitudeDelta : JSNum
  longitudeDelta : JSNum
deriving DecidableEq, Repr

/-- The fixed Kampala fallback coordinate `(0.3476, 32.5825)`. -/
def defaultCoord : Coord :=
  ⟨.fin (3476 / 10000), .fin (325825 / 10000)⟩

/-- The fallback map region: the Kampala coordinate with the fixed zoom spans
`0.0922` / `0.0421`. -/
def defaultRegion : MapRegion :=
  ⟨.fin (3476 / 10000), .fin (325825 / 10000), .fin (922 / 10000), .fin (421 / 10000)⟩

/-- The delivery-location slice of the screen's React state: the two manual
coordinate text fields, the delivery-address field, the map region and the
selected marker location.  (`locationPermission`, `showMap`, the cart and the
loading flag live in other slices and are modelled where needed.) -/
structure LocState where
  deliveryLat : String
  deliveryLng : String
  deliveryAddress : String
  mapRegion : MapRegion
  selectedLocation : Coord
deriving DecidableEq, Repr

/-- Model of `updateMapRegion` from `src/app/place-order.tsx` lines 93-116: a valid
coordinate becomes the new region (with the fixed deltas) and marker; an
invalid one logs a warning and resets both to the Kampala fallback.  The text
fields are not touched either way. -/
def updateMapRegion (latitude longitude : JSNum) (s : LocState) : LocState :=
  if validateCoordinates latitude longitude then
    { s with
      mapRegion := ⟨latitude, longitude, .fin (922 / 10000), .fin (421 / 10000)⟩
      selectedLocation := ⟨latitude, longitude⟩ }
  else
    { s with
      mapRegion := defaultRegion
      selectedLocation := defaultCoord }

/-- The continuation of `requestLocationPermission`
(`src/app/place-order.tsx` lines 149-165) that runs when
`getCurrentPositionAsync` resolves.  React semantics: the async function was
created by the render in which the effect ran (mount), so the `deliveryLat` /
`deliveryLng` it reads in `if (!deliveryLat || !deliveryLng)` are the
per-render constants captured at that time — passed here as `lat0` / `lng0` —
while the `set*` calls act on the state current at resolution time, `s`. -/
def gpsFixResume (lat0 lng0 : String) (fix : Coord) (s : LocState) : LocState :=
  if validateCoordinates fix.latitude fix.longitude then
    let s1 := updateMapRegion fix.latitude fix.longitude s
    if lat0 = "" || lng0 = "" then
      { s1 with
        deliveryLat := jsNumToString fix.latitude
        deliveryLng := jsNumToString fix.longitude }
    else s1
  else s

/-- Model of `onMapPress` from `src/app/place-order.tsx` lines 253-271, up to the
reverse-geocode call (modelled separately).  Returns the new state and whether
the "Invalid Selection" alert was raised; a missing or invalid coordinate
changes nothing. -/
def onMapPress (coordinate : Option Coord) (s : LocState) : LocState × Bool :=
  match coordinate with
  | none => (s, true)
  | some c =>
    if validateCoordinates c.latitude c.longitude then
      ({ s with
          selectedLocation := c
          deliveryLat := jsNumToString c.latitude
          deliveryLng := jsNumToString c.longitude }, false)
    else (s, true)

/-- A sample location state with a valid, non-default last-known-good
selected location `(1, 32)` and populated text fields. -/
def sampleState : LocState :=
  ⟨"1.0", "32.0", "Kampala", defaultRegion, ⟨.fin 1, .fin 32⟩⟩

/-- A location state as at screen mount for a user without stored
coordinates: both manual text fields empty. -/
def gpsMountState : LocState :=
  ⟨"", "", "", defaultRegion, defaultCoord⟩

/-- State `gpsMountState` after the user types "1.0" into the latitude field while
the GPS fix is still in flight. -/
def gpsEditedState : LocState :=
  { gpsMountState with deliveryLat := "1.0" }

/-- The GPS fix (0.3000, 32.6000) of the specification's example. -/
def gpsFixExample : Coord :=
  ⟨.fin (3 / 10), .fin (326 / 10)⟩

/-- C5: an invalid argument to `updateMapRegion` never lands in
`selectedLocation` or `mapRegion`; both are reset to the Kampala default
`(0.3476, 32.5825)` with deltas `0.0922` / `0.0421`. -/
theorem updateMapRegion_invalid_resets_to_default :
    ∀ (s : LocState) (lat lng : JSNum),
      validateCoordinates lat lng = false →
      (updateMapRegion lat lng s).mapRegion = defaultRegion ∧
      (updateMapRegion lat lng s).selectedLocation = defaultCoord ∧
      (updateMapRegion lat lng s).selectedLocation ≠ ⟨lat, lng⟩ := by
  intro s lat lng h
  refine ⟨by simp [updateMapRegion, h], by simp [updateMapRegion, h], ?_⟩
  simp only [updateMapRegion, h, Bool.false_eq_true, if_false, ne_eq]
  intro heq
  have hlat : JSNum.fin (3476 / 10000) = lat := congrArg Coord.latitude heq
  have hlng : JSNum.fin (325825 / 10000) = lng := congrArg Coord.longitude heq
  rw [← hlat, ← hlng] at h
  have : validateCoordinates (.fin (3476 / 10000)) (.fin (325825 / 10000)) = true := by
    with_unfolding_all rfl
  simp [this] at h

/-- Witness for C5 at the invalid latitude 91. -/
theorem updateMapRegion_invalid_resets_to_default_witness :
    validateCoordinates (.fin 91) (.fin 0) = false ∧
    ((updateMapRegion (.fin 91) (.fin 0) sampleState).mapRegion = defaultRegion ∧
     (updateMapRegion (.fin 91) (.fin 0) sampleState).selectedLocation = defaultCoord ∧
     (updateMapRegion (.fin 91) (.fin 0) sampleState).selectedLocation ≠ ⟨.fin 91, .fin 0⟩) :=
  ⟨by with_unfolding_all rfl,
   updateMapRegion_invalid_resets_to_default sampleState (.fin 91) (.fin 0)
     (by with_unfolding_all rfl)⟩

/-- C4 counterexample: an invalid call to `updateMapRegion` does mutate shared
location state — `sampleState` holds the valid last-known-good marker
`(1, 32)`, yet `updateMapRegion NaN 5` moves `selectedLocation` away from it
(to the Kampala default), so the state does not keep its last-known-good
value. -/
theorem updateMapRegion_invalid_mutates_state :
    (updateMapRegion .nan (.fin 5) sampleState).selectedLocation
        ≠ sampleState.selectedLocation ∧
    validateCoordinates sampleState.selectedLocation.latitude
        sampleState.selectedLocation.longitude = true ∧
    validateCoordinates JSNum.nan (.fin 5) = false :=
  ⟨of_decide_eq_false (by with_unfolding_all rfl),
   by with_unfolding_all rfl, by with_unfolding_all rfl⟩

/-- C4 (amended): on an invalid coordinate, `onMapPress` and the GPS-fix
continuation mutate nothing (only a notice/log is produced), while
`updateMapRegion` keeps the text fields but resets `selectedLocation` /
`mapRegion` to the fixed Kampala default rather than keeping the
last-known-good value. -/
theorem invalid_coordinate_state_handling :
    ∀ (s : LocState) (lat lng : JSNum) (lat0 lng0 : String),
      validateCoordinates lat lng = false →
      onMapPress (some ⟨lat, lng⟩) s = (s, true) ∧
      onMapPress none s = (s, true) ∧
      gpsFixResume lat0 lng0 ⟨lat, lng⟩ s = s ∧
      (updateMapRegion lat lng s).deliveryLat = s.deliveryLat ∧
      (updateMapRegion lat lng s).deliveryLng = s.deliveryLng ∧
      (updateMapRegion lat lng s).deliveryAddress = s.deliveryAddress ∧
      (updateMapRegion lat lng s).selectedLocation = defaultCoord ∧
      (updateMapRegion lat lng s).mapRegion = defaultRegion := by
  intro s lat lng lat0 lng0 h
  refine ⟨?_, rfl, ?_, ?_, ?_, ?_, ?_, ?_⟩ <;>
    simp [onMapPress, gpsFixResume, updateMapRegion, h]

/-- Witness for C4's amended theorem at `(NaN, 5)`. -/
theorem invalid_coordinate_state_handling_witness :
    validateCoordinates JSNum.nan (.fin 5) = false ∧
    (onMapPress (some ⟨.nan, .fin 5⟩) sampleState = (sampleState, true) ∧
     onMapPress none sampleState = (sampleState, true) ∧
     gpsFixResume "a" "b" ⟨.nan, .fin 5⟩ sampleState = sampleState ∧
     (updateMapRegion .nan (.fin 5) sampleState).deliveryLat = sampleState.deliveryLat ∧
     (updateMapRegion .nan (.fin 5) sampleState).deliveryLng = sampleState.deliveryLng ∧
     (updateMapRegion .nan (.fin 5) sampleState).deliveryAddress = sampleState.deliveryAddress ∧
     (updateMapRegion .nan (.fin 5) sampleState).selectedLocation = defaultCoord ∧
     (updateMapRegion .nan (.fin 5) sampleState).mapRegion = defaultRegion) :=
  ⟨by with_unfolding_all rfl,
   invalid_coordinate_state_handling sampleState .nan (.fin 5) "a" "b"
     (by with_unfolding_all rfl)⟩

/-- C1: the stale-response guard does not hold.  The fields were empty at
mount (request time), so the effect's closure captured `("", "")`; the user
then typed "1.0" into the latitude field, and when the GPS fix (0.3, 32.6)
resolves, the emptiness check consults the captured (request-time) values and
overwrites the field with "0.3" — the typed "1.0" is lost, while the marker
moves to the fix as expected. -/
theorem gpsFix_overwrites_manual_edit :
    (gpsFixResume gpsMountState.deliveryLat gpsMountState.deliveryLng
        gpsFixExample gpsEditedState).deliveryLat = "0.3" ∧
    (gpsFixResume gpsMountState.deliveryLat gpsMountState.deliveryLng
        gpsFixExample gpsEditedState).deliveryLat ≠ "1.0" ∧
    gpsEditedState.deliveryLat = "1.0" ∧
    (gpsFixResume gpsMountState.deliveryLat gpsMountState.deliveryLng
        gpsFixExample gpsEditedState).selectedLocation = gpsFixExample :=
  ⟨by with_unfolding_all rfl,
   of_decide_eq_false (by with_unfolding_all rfl),
   rfl,
   by with_unfolding_all rfl⟩

/-! ## Numeric parsing of the manual text fields -/

/-- Base-10 value of a digit string. -/
def digitsToNat (cs : List Char) : Nat :=
  cs.foldl (fun acc c => acc * 10 + (c.toNat - 48)) 0

/-- JavaScript's global `parseFloat`: skip leading whitespace, optional sign,
then either the literal `Infinity` or decimal digits with optional fraction
and exponent, ignoring any trailing garbage; NaN when no number can be read.
Finite results are exact rationals (the model elides the final
round-to-double, which none of the verified properties depends on). -/
def parseFloat (s : String) : JSNum :=
  let cs0 := s.toList.dropWhile (·.isWhitespace)
  let sgn : ℚ := match cs0 with
    | '-' :: _ => -1
    | _ => 1
  let cs := match cs0 with
    | '+' :: r => r
    | '-' :: r => r
    | _ => cs0
  if cs.take 8 = "Infinity".toList then
    if sgn = 1 then .posInf else .negInf
  else
    let intDs := cs.takeWhile (·.isDigit)
    let rest := cs.drop intDs.length
    let fracDs := match rest with
      | '.' :: r => r.takeWhile (·.isDigit)
      | _ => []
    let rest2 := match rest with
      | '.' :: r => r.drop fracDs.length
      | _ => rest
    if intDs.isEmpty && fracDs.isEmpty then .nan
    else
      let mant : ℚ := (digitsToNat intDs : ℚ) + (digitsToNat fracDs : ℚ) / 10 ^ fracDs.length
      let expVal : ℤ := match rest2 with
        | 'e' :: r3 | 'E' :: r3 =>
          let esgn : ℤ := match r3 with
            | '-' :: _ => -1
            | _ => 1
          let r4 := match r3 with
            | '+' :: r => r
            | '-' :: r => r
            | _ => r3
          let eDs := r4.takeWhile (·.isDigit)
          if eDs.isEmpty then 0 else esgn * digitsToNat eDs
        | _ => 0
      .fin (sgn * mant * (10 : ℚ) ^ expVal)

/-! ## Cart model -/

/-- The fields of a `GasCylinder` (from `src/services/api`) that the cart and
submission logic reads; the remaining fields (name, brand, weight, image, …)
are presentation-only. -/
structure GasCylinder where
  id : String
  price : ℚ
  stockQuantity : ℤ
deriving DecidableEq, Repr

/-- The `CartItem` interface of `src/app/place-order.tsx` lines 25-27:
a cylinder plus a quantity. -/
structure CartItem extends GasCylinder where
  quantity : ℤ
deriving DecidableEq, Repr

/-- Model of `addToCart` from `src/app/place-order.tsx` lines 283-299.  Returns the new
cart and whether the "Stock Limit" alert was raised: an existing line at or
above the cylinder's `stockQuantity` blocks the add; an existing line below it
is incremented; an absent line is appended with quantity 1 (no stock check on
this path). -/
def addToCart (cylinder : GasCylinder) (prev : List CartItem) : List CartItem × Bool :=
  match prev.find? (fun item => item.id == cylinder.id) with
  | some existing =>
    if cylinder.stockQuantity ≤ existing.quantity then (prev, true)
    else
      (prev.map (fun item =>
        if item.id == cylinder.id then { item with quantity := item.quantity + 1 }
        else item), false)
  | none => (prev ++ [{ cylinder with quantity := 1 }], false)

/-- The per-line step of `updateQuantity` (`src/app/place-order.tsx` lines
304-315): `none` drops the line (new quantity ≤ 0), otherwise the kept line,
together with whether the "Stock Limit" alert was raised. -/
def updateQuantityItem (id : String) (change : ℤ) (item : CartItem) :
    Option CartItem × Bool :=
  if item.id == id then
    let newQuantity := item.quantity + change
    if newQuantity ≤ 0 then (none, false)
    else if item.stockQuantity < newQuantity then (some item, true)
    else (some { item with quantity := newQuantity }, false)
  else (some item, false)

/-- Model of `updateQuantity` from `src/app/place-order.tsx` lines 301-318: map the
per-line step over the cart and drop removed lines (`.filter(Boolean)`). -/
def updateQuantity (id : String) (change : ℤ) (prev : List CartItem) :
    List CartItem × Bool :=
  let results := prev.map (updateQuantityItem id change)
  (results.filterMap Prod.fst, results.any Prod.snd)

/-- The cart invariant of the specification: every line has
`1 ≤ quantity ≤ stockQuantity`. -/
def cartInvariant (cart : List CartItem) : Bool :=
  cart.all (fun item => decide (1 ≤ item.quantity) && decide (item.quantity ≤ item.stockQuantity))

/-- Model of `subtotal` from `src/app/place-order.tsx` line 321:
`cart.reduce((sum, item) => sum + item.price * item.quantity, 0)`. -/
def subtotal (cart : List CartItem) : ℚ :=
  cart.foldl (fun sum item => sum + item.price * item.quantity) 0

/-- Model of `total` from `src/app/place-order.tsx` line 322: `const total = subtotal`. -/
def total (cart : List CartItem) : ℚ :=
  subtotal cart

/-- Model of `canPlaceOrder` from `src/app/place-order.tsx` lines 325-332, as the
truthiness of the JavaScript `&&`-chain
`cart.length > 0 && deliveryAddress.trim() && validateCoordinates(lat, lng) && !loading`
with `lat`/`lng` the `parseFloat` of the two manual text fields. -/
def canPlaceOrder (cart : List CartItem)
    (deliveryAddress deliveryLat deliveryLng : String) (loading : Bool) : Bool :=
  let lat := parseFloat deliveryLat
  let lng := parseFloat deliveryLng
  decide (0 < cart.length) && !(deliveryAddress.trim == "") &&
    validateCoordinates lat lng && !loading

/-! ## Reverse geocoding -/

/-- The address components of one result of `Location.reverseGeocodeAsync`
that `handleReverseGeocode` reads; `none` models a null/undefined field. -/
structure GeocodeResult where
  name : Option String
  street : Option String
  city : Option String
  region : Option String
  postalCode : Option String
  country : Option String
deriving DecidableEq, Repr

/-- The `addressParts` / `address` computation of `handleReverseGeocode`
(`src/app/place-order.tsx` lines 228-237): the six components in order,
`filter(Boolean)` dropping null/undefined/empty, joined with `", "` and
trimmed. -/
def buildAddress (r : GeocodeResult) : String :=
  let addressParts :=
    ([r.name, r.street, r.city, r.region, r.postalCode, r.country].filterMap id).filter
      (fun p => !(p == ""))
  (String.intercalate ", " addressParts).trim

/-- The deterministic fallback address
`` `Lat: ${latitude.toFixed(4)}, Lng: ${longitude.toFixed(4)}` ``. -/
def fallbackAddress (latitude longitude : JSNum) : String :=
  "Lat: " ++ toFixed latitude 4 ++ ", Lng: " ++ toFixed longitude 4

/-- Model of `handleReverseGeocode` from `src/app/place-order.tsx` lines 219-250, as
the address string it stores: the geocoder's outcome is passed as an `Except`
(`error` models a thrown error, `ok` the result list). -/
def handleReverseGeocode (latitude longitude : JSNum)
    (results : Except Unit (List GeocodeResult)) : String :=
  match results with
  | .error _ => fallbackAddress latitude longitude
  | .ok [] => fallbackAddress latitude longitude
  | .ok (r :: _) =>
    let address := buildAddress r
    if address = "" then fallbackAddress latitude longitude else address

/-! ## Order placement success path -/

/-- The slice of screen state the success path of `placeOrder` touches. -/
structure ScreenState where
  cart : List CartItem
  instructions : String
  loading : Bool
deriving DecidableEq, Repr

/-- An observable side effect of the success-alert button handlers. -/
inductive Effect where
  | pushRoute (route : String)
  | reloadCylinders
deriving DecidableEq, Repr

/-- The button labels of the success alert
(`src/app/place-order.tsx` lines 373-387). -/
def placeOrderSuccessButtons : List String :=
  ["View Orders", "New Order"]

/-- Resolution of a successful `createOrder` call: the success alert is shown
and the `finally` block clears the loading flag; nothing else changes
(`src/app/place-order.tsx` lines 371-396). -/
def placeOrderSuccessResolve (s : ScreenState) : ScreenState :=
  { s with loading := false }

/-- The "View Orders" button handler: `router.push('/orders')` only. -/
def successViewOrdersPress (s : ScreenState) : ScreenState × List Effect :=
  (s, [.pushRoute "/orders"])

/-- The "New Order" button handler: `setCart([]); setInstructions('');
loadCylinders();` (`src/app/place-order.tsx` lines 380-384). -/
def successNewOrderPress (s : ScreenState) : ScreenState × List Effect :=
  ({ s with cart := [], instructions := "" }, [.reloadCylinders])

/-! ## Theorems on the submission gate, totals and the cart -/

/-- C2: the submission gate is true exactly when the cart is non-empty, the
trimmed address is non-empty, the parse of the two manual text fields
validates, and no submission is in flight. -/
theorem canPlaceOrder_iff :
    ∀ (cart : List CartItem) (addr latText lngText : String) (loading : Bool),
      canPlaceOrder cart addr latText lngText loading = true ↔
        cart ≠ [] ∧ addr.trim ≠ "" ∧
        validateCoordinates (parseFloat latText) (parseFloat lngText) = true ∧
        loading = false := by
  intro cart addr latText lngText loading
  simp [canPlaceOrder, List.length_pos, and_assoc]

/-- Witness for C2: the gate is true on a one-line cart, address "Kampala",
coordinates "0.3" / "32.6" and no in-flight submission. -/
theorem canPlaceOrder_iff_witness :
    canPlaceOrder [⟨⟨"c1", 50000, 5⟩, 1⟩] "Kampala" "0.3" "32.6" false = true :=
  (canPlaceOrder_iff [⟨⟨"c1", 50000, 5⟩, 1⟩] "Kampala" "0.3" "32.6" false).mpr
    ⟨List.cons_ne_nil _ _,
     of_decide_eq_false (by with_unfolding_all rfl),
     by with_unfolding_all rfl, rfl⟩

/-- Generalized-accumulator form of the subtotal fold. -/
theorem subtotal_foldl_eq (cart : List CartItem) :
    ∀ a : ℚ, cart.foldl (fun sum item => sum + item.price * (item.quantity : ℚ)) a =
      a + (cart.map (fun item => item.price * (item.quantity : ℚ))).sum := by
  induction cart with
  | nil => intro a; simp
  | cons x xs ih =>
    intro a
    rw [List.foldl_cons, ih, List.map_cons, List.sum_cons, add_assoc]

/-- C9: the displayed total equals the subtotal, which is the sum over the
cart of price × quantity; no fee is added. -/
theorem total_eq_sum_price_times_quantity :
    ∀ cart : List CartItem,
      total cart = subtotal cart ∧
      subtotal cart = (cart.map (fun item => item.price * (item.quantity : ℚ))).sum := by
  intro cart
  refine ⟨rfl, ?_⟩
  simpa using subtotal_foldl_eq cart 0

/-- C10: a cylinder whose id has no line in the cart is appended with
quantity exactly 1 and no notice, with no stock check — in particular a
cylinder with `stockQuantity = 0` enters an empty cart with quantity 1. -/
theorem addToCart_new_line_quantity_one :
    (∀ (cylinder : GasCylinder) (cart : List CartItem),
       (∀ item ∈ cart, item.id ≠ cylinder.id) →
       addToCart cylinder cart = (cart ++ [{ cylinder with quantity := 1 }], false)) ∧
    addToCart ⟨"c0", 50000, 0⟩ [] = ([⟨⟨"c0", 50000, 0⟩, 1⟩], false) := by
  constructor
  · intro cylinder cart hnone
    have hfind : cart.find? (fun item => item.id == cylinder.id) = none := by
      rw [List.find?_eq_none]
      intro item hmem
      simpa using hnone item hmem
    simp [addToCart, hfind]
  · with_unfolding_all rfl

/-- Witness for C10: appending a stock-0 cylinder to a cart holding an
unrelated line. -/
theorem addToCart_new_line_quantity_one_witness :
    addToCart ⟨"c0", 50000, 0⟩ [⟨⟨"c9", 1000, 4⟩, 2⟩] =
      ([⟨⟨"c9", 1000, 4⟩, 2⟩, ⟨⟨"c0", 50000, 0⟩, 1⟩], false) :=
  addToCart_new_line_quantity_one.1 ⟨"c0", 50000, 0⟩ [⟨⟨"c9", 1000, 4⟩, 2⟩]
    (by intro item hmem; simp at hmem; subst hmem; simp)

/-- C6 counterexample: `addToCart` does not preserve the cart invariant —
a cylinder with `stockQuantity = 0` added to the (invariant-satisfying) empty
cart yields a line with `quantity = 1 > stockQuantity = 0`. -/
theorem addToCart_breaks_invariant_stock_zero :
    cartInvariant [] = true ∧
    (addToCart ⟨"c0", 50000, 0⟩ []).1 = [⟨⟨"c0", 50000, 0⟩, 1⟩] ∧
    cartInvariant (addToCart ⟨"c0", 50000, 0⟩ []).1 = false :=
  ⟨rfl, by with_unfolding_all rfl, by with_unfolding_all rfl⟩

/-- With pairwise-distinct line ids, any cart member whose id matches the
searched id is the line `find?` returned. -/
theorem find_matching_unique (x : String) (l : List CartItem) (e : CartItem)
    (hnodup : (l.map (fun item => item.id)).Nodup)
    (hfind : l.find? (fun item => item.id == x) = some e) :
    ∀ item ∈ l, item.id = x → item = e := by
  induction l with
  | nil => simp at hfind
  | cons a t ih =>
    rw [List.map_cons, List.nodup_cons] at hnodup
    by_cases ha : a.id = x
    · rw [List.find?_cons_of_pos _ (by simpa using ha)] at hfind
      have hae : a = e := by injection hfind
      subst hae
      intro item hmem hid
      rcases List.mem_cons.mp hmem with rfl | hmem'
      · rfl
      · exfalso
        apply hnodup.1
        have : item.id ∈ t.map (fun item => item.id) :=
          List.mem_map_of_mem _ hmem'
        rwa [hid, ← ha] at this
    · rw [List.find?_cons_of_neg _ (by simpa using ha)] at hfind
      intro item hmem hid
      rcases List.mem_cons.mp hmem with rfl | hmem'
      · exact absurd hid ha
      · exact ih hnodup.2 hfind item hmem' hid

/-- Unfolded form of the cart invariant. -/
theorem cartInvariant_iff (cart : List CartItem) :
    cartInvariant cart = true ↔
      ∀ item ∈ cart, 1 ≤ item.quantity ∧ item.quantity ≤ item.stockQuantity := by
  simp [cartInvariant]

/-- C6 (amended): on carts with pairwise-distinct line ids whose lines carry
the same stock figure as the cylinder being added (both maintained by the
screen), `addToCart` with a cylinder of stock ≥ 1 and `updateQuantity`
preserve `1 ≤ quantity ≤ stockQuantity`; an add whose first matching line is
at/above the cylinder's stock leaves the cart unchanged and raises the
notice; and a change taking every line of an id to quantity ≤ 0 removes those
lines. -/
theorem cart_ops_preserve_invariant :
    ∀ (cylinder : GasCylinder) (cart : List CartItem) (id : String) (change : ℤ),
      cartInvariant cart = true →
      1 ≤ cylinder.stockQuantity →
      (cart.map (fun item => item.id)).Nodup →
      (∀ item ∈ cart, item.id = cylinder.id → item.stockQuantity = cylinder.stockQuantity) →
      cartInvariant (addToCart cylinder cart).1 = true ∧
      cartInvariant (updateQuantity id change cart).1 = true ∧
      (∀ existing, cart.find? (fun item => item.id == cylinder.id) = some existing →
          cylinder.stockQuantity ≤ existing.quantity →
          addToCart cylinder cart = (cart, true)) ∧
      ((∀ item ∈ cart, item.id = id → item.quantity + change ≤ 0) →
          ∀ r ∈ (updateQuantity id change cart).1, r.id ≠ id) := by
  intro cylinder cart id change hinv hstock hnodup hmatch
  have hinv' := (cartInvariant_iff cart).mp hinv
  refine ⟨?_, ?_, ?_, ?_⟩
  · -- addToCart preserves the invariant
    rcases hfind : cart.find? (fun item => item.id == cylinder.id) with _ | existing
    · simp only [addToCart, hfind]
      rw [cartInvariant_iff]
      intro item hm
      rcases List.mem_append.mp hm with h | h
      · exact hinv' item h
      · simp only [List.mem_singleton] at h
        subst h
        exact ⟨le_refl 1, hstock⟩
    · have hex_mem : existing ∈ cart := List.mem_of_find?_eq_some hfind
      have hex_id : existing.id = cylinder.id := by
        simpa using List.find?_some hfind
      by_cases hle : cylinder.stockQuantity ≤ existing.quantity
      · simpa only [addToCart, hfind, if_pos hle] using hinv
      · simp only [addToCart, hfind, if_neg hle]
        rw [cartInvariant_iff]
        intro item hm
        rcases List.mem_map.mp hm with ⟨orig, horig, rfl⟩
        by_cases hid : orig.id = cylinder.id
        · have horige : orig = existing :=
            find_matching_unique cylinder.id cart existing hnodup hfind orig horig hid
          subst horige
          have h1 := hinv' orig hex_mem
          have hstockeq := hmatch orig hex_mem hex_id
          simp only [hid, beq_self_eq_true, if_true]
          exact ⟨by omega, by omega⟩
        · have hfid : (orig.id == cylinder.id) = false := by simpa using hid
          rw [hfid]
          simpa using hinv' orig horig
  · -- updateQuantity preserves the invariant
    rw [updateQuantity]
    simp only
    rw [cartInvariant_iff]
    intro r hr
    rw [List.mem_filterMap] at hr
    obtain ⟨y, hy, hyr⟩ := hr
    rw [List.mem_map] at hy
    obtain ⟨item, hitem, rfl⟩ := hy
    have hbounds := hinv' item hitem
    unfold updateQuantityItem at hyr
    by_cases hid : (item.id == id) = true
    · rw [if_pos hid] at hyr
      by_cases h0 : item.quantity + change ≤ 0
      · rw [if_pos h0] at hyr
        exact absurd hyr (by simp)
      · rw [if_neg h0] at hyr
        by_cases hover : item.stockQuantity < item.quantity + change
        · rw [if_pos hover] at hyr
          obtain rfl : item = r := by simpa using hyr
          exact hbounds
        · rw [if_neg hover] at hyr
          obtain rfl : ({ item with quantity := item.quantity + change } : CartItem) = r := by
            simpa using hyr
          constructor
          · show 1 ≤ item.quantity + change
            omega
          · show item.quantity + change ≤ item.stockQuantity
            omega
    · rw [if_neg hid] at hyr
      obtain rfl : item = r := by simpa using hyr
      exact hbounds
  · -- a blocked add leaves the cart unchanged and raises the notice
    intro existing hfind hle
    simp [addToCart, hfind, hle]
  · -- a change sending every matching line to quantity ≤ 0 removes the id
    intro hall r hr
    rw [updateQuantity] at hr
    simp only at hr
    rw [List.mem_filterMap] at hr
    obtain ⟨y, hy, hyr⟩ := hr
    rw [List.mem_map] at hy
    obtain ⟨item, hitem, rfl⟩ := hy
    unfold updateQuantityItem at hyr
    by_cases hid : (item.id == id) = true
    · have hid' : item.id = id := by simpa using hid
      rw [if_pos hid, if_pos (hall item hitem hid')] at hyr
      exact absurd hyr (by simp)
    · rw [if_neg hid] at hyr
      obtain rfl : item = r := by simpa using hyr
      simpa using hid

/-- The stock-3 cylinder of the specification's cart example. -/
def stock3Cylinder : GasCylinder :=
  ⟨"c3", 45000, 3⟩

/-- Witness for C6: the spec's stock-3 scenario — successive adds yield
quantities 1, 2, 3, a fourth add is blocked with the notice, a decrement from
quantity 1 removes the line — and the theorem applied to the two-line cart. -/
theorem cart_ops_preserve_invariant_witness :
    (addToCart stock3Cylinder []).1 = [⟨stock3Cylinder, 1⟩] ∧
    (addToCart stock3Cylinder [⟨stock3Cylinder, 1⟩]).1 = [⟨stock3Cylinder, 2⟩] ∧
    (addToCart stock3Cylinder [⟨stock3Cylinder, 2⟩]).1 = [⟨stock3Cylinder, 3⟩] ∧
    addToCart stock3Cylinder [⟨stock3Cylinder, 3⟩] = ([⟨stock3Cylinder, 3⟩], true) ∧
    updateQuantity "c3" (-1) [⟨stock3Cylinder, 1⟩] = ([], false) ∧
    (cartInvariant (addToCart stock3Cylinder [⟨stock3Cylinder, 2⟩]).1 = true ∧
     cartInvariant (updateQuantity "c3" (-1) [⟨stock3Cylinder, 2⟩]).1 = true ∧
     (∀ existing : CartItem,
        List.find? (fun item : CartItem => item.id == stock3Cylinder.id)
            [⟨stock3Cylinder, 2⟩] = some existing →
        stock3Cylinder.stockQuantity ≤ existing.quantity →
        addToCart stock3Cylinder [⟨stock3Cylinder, 2⟩] = ([⟨stock3Cylinder, 2⟩], true)) ∧
     ((∀ item ∈ [(⟨stock3Cylinder, 2⟩ : CartItem)], item.id = "c3" →
          item.quantity + -1 ≤ 0) →
        ∀ r ∈ (updateQuantity "c3" (-1) [⟨stock3Cylinder, 2⟩]).1, r.id ≠ "c3")) :=
  ⟨by with_unfolding_all rfl,
   by with_unfolding_all rfl,
   by with_unfolding_all rfl,
   by with_unfolding_all rfl,
   by with_unfolding_all rfl,
   cart_ops_preserve_invariant stock3Cylinder [⟨stock3Cylinder, 2⟩] "c3" (-1)
     (by with_unfolding_all rfl)
     (by decide)
     (by simp)
     (by intro item hmem _; simp only [List.mem_singleton] at hmem; subst hmem; rfl)⟩

/-! ## Theorems on the order-placement success path -/

/-- A concrete screen state mid-submission with a non-empty cart. -/
def orderSampleState : ScreenState :=
  ⟨[⟨⟨"c1", 50000, 5⟩, 2⟩], "ring the bell", true⟩

/-- C7 counterexample: after a successful `createOrder` resolves (success
alert shown, loading cleared), the cart is NOT yet cleared, and choosing
"View Orders" navigates away with the cart still non-empty — the clearing
happens only inside the "New Order" button handler. -/
theorem placeOrder_success_keeps_cart :
    (placeOrderSuccessResolve orderSampleState).cart = orderSampleState.cart ∧
    orderSampleState.cart ≠ [] ∧
    (successViewOrdersPress (placeOrderSuccessResolve orderSampleState)).1.cart ≠ [] :=
  ⟨rfl,
   of_decide_eq_false (by with_unfolding_all rfl),
   of_decide_eq_false (by with_unfolding_all rfl)⟩

/-- C7 (amended): success shows an acknowledgment with exactly two choices;
the "New Order" choice clears the cart and the special instructions and
reloads the inventory; the "View Orders" choice navigates to `/orders`
leaving the state (including the cart) untouched; resolution itself only
clears the loading flag. -/
theorem placeOrder_success_flow :
    placeOrderSuccessButtons.length = 2 ∧
    ∀ s : ScreenState,
      (placeOrderSuccessResolve s).cart = s.cart ∧
      (placeOrderSuccessResolve s).instructions = s.instructions ∧
      (successNewOrderPress (placeOrderSuccessResolve s)).1.cart = [] ∧
      (successNewOrderPress (placeOrderSuccessResolve s)).1.instructions = "" ∧
      (successNewOrderPress (placeOrderSuccessResolve s)).2 = [.reloadCylinders] ∧
      (successViewOrdersPress (placeOrderSuccessResolve s)).1 =
          placeOrderSuccessResolve s ∧
      (successViewOrdersPress (placeOrderSuccessResolve s)).2 =
          [.pushRoute "/orders"] :=
  ⟨rfl, fun _ => ⟨rfl, rfl, rfl, rfl, rfl, rfl, rfl⟩⟩

/-! ## Theorems on reverse geocoding -/

/-- C8: a geocoder error or empty result list yields the deterministic
`"Lat: …, Lng: …"` fallback — in particular exactly
`"Lat: 0.3500, Lng: 32.5800"` for `(0.35, 32.58)`; a first result whose
built address (components joined with `", "`, empties skipped) is non-empty
becomes the delivery address, and one whose built address is empty falls
back. -/
theorem handleReverseGeocode_spec :
    (∀ lat lng : JSNum,
       handleReverseGeocode lat lng (.error ()) = fallbackAddress lat lng) ∧
    (∀ lat lng : JSNum,
       handleReverseGeocode lat lng (.ok []) = fallbackAddress lat lng) ∧
    (∀ (lat lng : JSNum) (r : GeocodeResult) (rest : List GeocodeResult),
       buildAddress r ≠ "" →
       handleReverseGeocode lat lng (.ok (r :: rest)) = buildAddress r) ∧
    (∀ (lat lng : JSNum) (r : GeocodeResult) (rest : List GeocodeResult),
       buildAddress r = "" →
       handleReverseGeocode lat lng (.ok (r :: rest)) = fallbackAddress lat lng) ∧
    handleReverseGeocode (.fin (35 / 100)) (.fin (3258 / 100)) (.ok []) =
      "Lat: 0.3500, Lng: 32.5800" := by
  refine ⟨fun lat lng => rfl, fun lat lng => rfl, ?_, ?_, ?_⟩
  · intro lat lng r rest h
    simp [handleReverseGeocode, h]
  · intro lat lng r rest h
    simp [handleReverseGeocode, h]
  · with_unfolding_all rfl

/-- Witness for C8: a result with name, city and country present (street,
region, postal code missing) produces the comma-joined address, and an
all-empty result falls back. -/
theorem handleReverseGeocode_spec_witness :
    handleReverseGeocode (.fin 0) (.fin 0)
        (.ok [⟨some "Plot 1", none, some "Kampala", none, some "", some "Uganda"⟩]) =
      "Plot 1, Kampala, Uganda" ∧
    handleReverseGeocode (.fin 0) (.fin 0)
        (.ok [⟨none, none, some "", none, none, none⟩]) =
      "Lat: 0.0000, Lng: 0.0000" :=
  ⟨(handleReverseGeocode_spec.2.2.1 (.fin 0) (.fin 0)
      ⟨some "Plot 1", none, some "Kampala", none, some "", some "Uganda"⟩ []
      (of_decide_eq_false (by with_unfolding_all rfl))).trans
      (by with_unfolding_all rfl),
   (handleReverseGeocode_spec.2.2.2.1 (.fin 0) (.fin 0)
      ⟨none, none, some "", none, none, none⟩ []
      (by with_unfolding_all rfl)).trans
      (by with_unfolding_all rfl)⟩

end GasDeliver
